import Mathlib

/-!
Verification development for the node wrapper of the issuer-credential API
(src/wrappers/node/src/api/issuer-credential.ts).

The file shallowly embeds the TypeScript class `IssuerCredential`:
pure control flow becomes Lean functions, the one-shot ffi callback
handlers become functions from the callback arguments to a settlement
value, and a JS string that may be null is `Option String` (with `none`
standing for null/undefined).  Parts of the behaviour that live in the
base class `VCXBaseWithState`, in `ffi-helpers`, or inside the native
engine are modelled from the design document and are marked as such in
their doc comments.
-/

namespace AriesVcx

/-- Hexadecimal digit character for a value below 16, lower case, as
produced by JavaScript string escaping. -/
def hexDigit (n : Nat) : Char :=
  if n < 10 then Char.ofNat (48 + n) else Char.ofNat (87 + n)

/-- Four-digit hexadecimal rendering of a code point, as in a JSON
\uXXXX escape. -/
def hex4 (n : Nat) : String :=
  String.mk [hexDigit (n / 4096 % 16), hexDigit (n / 256 % 16),
    hexDigit (n / 16 % 16), hexDigit (n % 16)]

/-- Escaping of one character by JSON.stringify applied to a string. -/
def jsonEscapeChar (c : Char) : String :=
  if c = '"' then "\\\""
  else if c = '\\' then "\\\\"
  else if c = '\x08' then "\\b"
  else if c = '\x0c' then "\\f"
  else if c = '\n' then "\\n"
  else if c = '\r' then "\\r"
  else if c = '\t' then "\\t"
  else if c.toNat < 32 then "\\u" ++ hex4 c.toNat
  else String.singleton c

/-- JSON.stringify applied to a JavaScript string value: the escaped
contents between double quotes. -/
def jsonStringifyString (s : String) : String :=
  "\"" ++ String.join (s.data.map jsonEscapeChar) ++ "\""

/-- Serialized data record `ISerializedData` from common.ts: a version
tag plus the typed payload. -/
structure ISerializedData (α : Type) where
  version : String
  data : α
deriving DecidableEq

/-- Outcome of the version dispatch inside `IssuerCredential.deserialize`:
either the input is forwarded to the native deserialize call (through
`super._deserialize`) or the switch statement throws on an unsupported
version tag. -/
inductive DeserializeStep (α : Type) where
  | nativeDeserialize (d : ISerializedData α)
  | versionError (msg : String)
deriving DecidableEq

/-- Message of the error thrown by `IssuerCredential.deserialize` for a
version tag other than "2.0"; the tag is interpolated through
JSON.stringify. -/
def unsupportedVersionMsg (v : String) : String :=
  "Unsupported version provided in serialized credential data: " ++ jsonStringifyString v

/-- Version dispatch of `IssuerCredential.deserialize` (the switch on
`credentialData.version`): the tag "2.0" forwards the input to the
native deserialize call; any other tag throws before any native call. -/
def deserializeDispatch {α : Type} (cd : ISerializedData α) : DeserializeStep α :=
  if cd.version = "2.0" then .nativeDeserialize cd
  else .versionError (unsupportedVersionMsg cd.version)

/-- Protocol states of the issuer credential, from the transition table
documented at the head of issuer-credential.ts (VcxStateType): None,
Initialized, OfferSent, RequestReceived, Accepted. -/
inductive IssuanceState where
  | none
  | initialized
  | offerSent
  | requestReceived
  | accepted
deriving DecidableEq

/-- Triggers of the issuance state machine: the two local actions, the
create call, and the externally observed protocol events. -/
inductive Trigger where
  | create
  | sendOffer
  | credentialRequest
  | problemReport
  | sendCredential
  | ack
deriving DecidableEq

/-- Modelled from the spec: the engine-side issuance state machine is
not under src/; this is the transition table documented both in the
design document and in the doc comment of issuer-credential.ts.  A
result of `Option.none` means the engine rejects the trigger with an
EngineError (a nonzero status code) instead of silently accepting it. -/
def issuanceStep : IssuanceState → Trigger → Option IssuanceState
  | .none, .create => some .initialized
  | .initialized, .sendOffer => some .offerSent
  | .offerSent, .credentialRequest => some .requestReceived
  | .offerSent, .problemReport => some .none
  | .requestReceived, .sendCredential => some .accepted
  | .accepted, .ack => some .accepted
  | _, _ => Option.none

/-- Payload type `IIssuerCredentialData` of serialized issuer
credentials: the engine state machine snapshot `issuer_sm` (opaque to
the binding layer; modelled by the protocol state it records) and the
`source_id`. -/
structure IIssuerCredentialData where
  issuer_sm : IssuanceState
  source_id : String
deriving DecidableEq

/-- Wrapper object as far as the round-trip claim observes it: the
`sourceId` bound at construction and the engine-tracked protocol state
returned by `getState`. -/
structure IssuerCredentialObj where
  sourceId : String
  state : IssuanceState
deriving DecidableEq

/-- Modelled from the spec: `serialize` lives in `VCXBaseWithState` and
the native engine, not under src/; per the design document it produces
the version tag "2.0" and a payload capturing the engine-side state and
the source id. -/
def serialize (o : IssuerCredentialObj) : ISerializedData IIssuerCredentialData :=
  { version := "2.0", data := { issuer_sm := o.state, source_id := o.sourceId } }

/-- Modelled from the spec: the native deserialize reconstructs the
object with the state recovered from the engine's restored state and the
source id carried in the payload. -/
def nativeDeserializeData (d : IIssuerCredentialData) : IssuerCredentialObj :=
  { sourceId := d.source_id, state := d.issuer_sm }

/-- Full `IssuerCredential.deserialize`: the version dispatch embedded
from source composed with the spec-modelled native reconstruction. -/
def deserialize (cd : ISerializedData IIssuerCredentialData) :
    Except String IssuerCredentialObj :=
  match deserializeDispatch cd with
  | .nativeDeserialize d => .ok (nativeDeserializeData d.data)
  | .versionError msg => .error msg

/-- Settlement of the promise produced by one ffi callback: the handler
either resolves with a value, rejects with a numeric status code, or
rejects with a JavaScript string. -/
inductive Settle (α : Type) where
  | resolve (v : α)
  | reject (code : Nat)
  | rejectMsg (msg : String)
deriving DecidableEq

/-- Truth of `!message` in JavaScript for a string-or-null value:
null/undefined and the empty string are falsy. -/
def jsFalsy : Option String → Bool
  | Option.none => true
  | some s => s.isEmpty

/-- Message of the empty-result rejection in `getCredentialOfferMsg` and
`getCredentialMsg`; it interpolates the object's sourceId. -/
def emptyResultMsg (sourceId : String) : String :=
  "Credential " ++ sourceId ++ " returned empty string"

/-- Callback handler of `IssuerCredential.getCredentialOfferMsg`:
nonzero err rejects with the code; a falsy message rejects with the
empty-result message; otherwise the delivered message is resolved. -/
def getCredentialOfferMsgCallback (sourceId : String) (err : Nat)
    (message : Option String) : Settle (Option String) :=
  if err ≠ 0 then .reject err
  else if jsFalsy message then .rejectMsg (emptyResultMsg sourceId)
  else .resolve message

/-- Callback handler of `IssuerCredential.getCredentialMsg`: identical
control flow to the offer-message handler. -/
def getCredentialMsgCallback (sourceId : String) (err : Nat)
    (message : Option String) : Settle (Option String) :=
  if err ≠ 0 then .reject err
  else if jsFalsy message then .rejectMsg (emptyResultMsg sourceId)
  else .resolve message

/-- Callback handler of `IssuerCredential.getThreadId`: nonzero err
rejects with the code, otherwise the delivered value is resolved as
received, with no emptiness check. -/
def getThreadIdCallback (err : Nat) (threadId : Option String) :
    Settle (Option String) :=
  if err ≠ 0 then .reject err
  else .resolve threadId

/-- Callback handler of `IssuerCredential.getRevRegId`: nonzero err
rejects with the code, otherwise the delivered value is resolved as
received, with no emptiness check. -/
def getRevRegIdCallback (err : Nat) (revRegId : Option String) :
    Settle (Option String) :=
  if err ≠ 0 then .reject err
  else .resolve revRegId

/-- Raw failure carried out of a method body before wrapping: a nonzero
engine status code (from the synchronous return or the callback) or a
JavaScript value thrown/rejected locally (captured by its message). -/
inductive VcxErr where
  | engine (code : Nat)
  | jsError (msg : String)
deriving DecidableEq

/-- Wrapper error type from errors.ts: every public method's catch
clause rethrows `new VCXInternalError(err)` around the original
failure. -/
structure VCXInternalError where
  inner : VcxErr
deriving DecidableEq

/-- Composition of one public method around its ffi call: the
synchronous return code is checked first (`if (rc) reject(rc)`), then
the callback settlement is awaited, and the surrounding try/catch wraps
any rejection in `VCXInternalError`. -/
def runMethod {α : Type} (rc : Nat) (cbResult : Settle α) :
    Except VCXInternalError α :=
  if rc ≠ 0 then .error ⟨.engine rc⟩
  else
    match cbResult with
    | .resolve v => .ok v
    | .reject c => .error ⟨.engine c⟩
    | .rejectMsg m => .error ⟨.jsError m⟩

/-- Public operations of `IssuerCredential` that issue a native call. -/
inductive IssuerOp where
  | create
  | sendOffer
  | getCredentialOfferMsg
  | getThreadId
  | sendCredential
  | getCredentialMsg
  | revokeCredential
  | revokeCredentialLocal
  | getRevRegId
deriving DecidableEq

/-- Command handle passed to the native call by each operation, read
off the call sites in issuer-credential.ts (`const commandHandle = 0`
in create; the literal 0 as first argument everywhere else). -/
def commandHandleOf : IssuerOp → Nat
  | .create => 0
  | .sendOffer => 0
  | .getCredentialOfferMsg => 0
  | .getThreadId => 0
  | .sendCredential => 0
  | .getCredentialMsg => 0
  | .revokeCredential => 0
  | .revokeCredentialLocal => 0
  | .getRevRegId => 0

/-- Immediate outcome of issuing the native call: either the promise is
rejected right away with the synchronous status code, or it stays
pending until the one-shot callback fires. -/
inductive InvokeResult where
  | rejectedSync (code : Nat)
  | awaitCallback
deriving DecidableEq

/-- Synchronous gate of each method's ffi call (`const rc = ...;
if (rc) reject(rc)`), embedded from the eight method bodies in
issuer-credential.ts; for `create` the same gate sits inside
`VCXBaseWithState._create`, which is not under src/ and is modelled
from the design document. -/
def syncStep (op : IssuerOp) (rc : Nat) : InvokeResult :=
  match op with
  | _ => if rc ≠ 0 then .rejectedSync rc else .awaitCallback

/-- JavaScript attribute object as JSON.stringify sees it at run time:
the static type of `attr` does not rule out values on which stringify
throws (for example circular structures), so the object is modelled
together with its stringify outcome. -/
inductive AttrObject where
  | encodable (json : String)
  | unencodable (errMsg : String)
deriving DecidableEq

/-- JSON.stringify applied to the attribute object. -/
def jsonStringifyAttr : AttrObject → Except String String
  | .encodable j => .ok j
  | .unencodable e => .error e

/-- Parameters of `IssuerCredential.create` (`IIssuerCredentialCreateData`);
`attr` is `Option`al because the source guards `attrsVCX ? JSON.stringify(attrsVCX)
: attrsVCX`, so a falsy attribute object skips the stringify step. -/
structure IIssuerCredentialCreateData where
  sourceId : String
  credDefHandle : Int
  attr : Option AttrObject
  credentialName : String
  price : String
  issuerDid : String

/-- Observable trace of one `IssuerCredential.create` invocation: how
many native create calls were issued and the settled result. -/
structure CreateTrace where
  nativeCreateCalls : Nat
  result : Except VCXInternalError IssuerCredentialObj

/-- Issuing step of `IssuerCredential.create`: one native create call
through `_create`.  The engine's response is abstracted by
`nativeErrCode` (`none` for success); that on success the object is in
state Initialized with the given sourceId bound is modelled from the
spec, since `_create` lives in `VCXBaseWithState`, outside src/. -/
def createIssue (d : IIssuerCredentialCreateData) (nativeErrCode : Option Nat) :
    CreateTrace :=
  { nativeCreateCalls := 1
    result :=
      match nativeErrCode with
      | some c => .error ⟨.engine c⟩
      | Option.none => .ok { sourceId := d.sourceId, state := .initialized } }

/-- Body of `IssuerCredential.create`: the wrapper is constructed with
the given sourceId, the attribute mapping is stringified, and only then
is the native create call issued through `_create`.  A stringify throw
is caught by the surrounding try/catch and wrapped in
`VCXInternalError`, with no native call made. -/
def create (d : IIssuerCredentialCreateData) (nativeErrCode : Option Nat) :
    CreateTrace :=
  match d.attr with
  | Option.none => createIssue d nativeErrCode
  | some a =>
    match jsonStringifyAttr a with
    | .error e => { nativeCreateCalls := 0, result := .error ⟨.jsError e⟩ }
    | .ok _ => createIssue d nativeErrCode

/-- Concrete create input whose attribute object makes JSON.stringify
throw (a circular structure at run time). -/
def sampleBadCreateData : IIssuerCredentialCreateData :=
  { sourceId := "12", credDefHandle := 7
    attr := some (.unencodable "Converting circular structure to JSON")
    credentialName := "Drivers Licence", price := "0", issuerDid := "V4SG" }

/-- Handle-related fields of an `IssuerCredential`: the native handle
stored by `VCXBase._setHandle` (modelled from the spec, the base class
is not under src/) and the handle held by the `paymentManager` built in
the overridden `_setHandle`.  Before the first `_setHandle` the payment
manager is unassigned (`paymentManager!` definite-assignment), hence
`Option`. -/
structure IssuerCredentialHandleState where
  handle : Nat
  paymentManagerHandle : Option Nat
deriving DecidableEq

/-- Overridden `IssuerCredential._setHandle`: stores the handle through
the base class, then constructs a fresh `IssuerCredentialPaymentManager`
with that same handle. -/
def setHandle (_s : IssuerCredentialHandleState) (h : Nat) :
    IssuerCredentialHandleState :=
  { handle := h, paymentManagerHandle := some h }

/-- C1: for every serialized credential input whose version tag is not
"2.0", deserialize rejects with the error naming the unsupported tag
and no native deserialize call is made; for version "2.0" the input is
forwarded to the native deserialize operation. -/
theorem deserialize_version_gate {α : Type} (cd : ISerializedData α) :
    (cd.version ≠ "2.0" →
      deserializeDispatch cd = .versionError (unsupportedVersionMsg cd.version)
        ∧ ∀ d, deserializeDispatch cd ≠ .nativeDeserialize d)
    ∧ (cd.version = "2.0" → deserializeDispatch cd = .nativeDeserialize cd) := by
  constructor
  · intro hv
    unfold deserializeDispatch
    rw [if_neg hv]
    exact ⟨rfl, fun d hne => DeserializeStep.noConfusion hne⟩
  · intro hv
    unfold deserializeDispatch
    rw [if_pos hv]

/-- Witness for C1 at the concrete rejected version tag "1.0". -/
theorem deserialize_version_gate_witness :
    deserializeDispatch (ISerializedData.mk "1.0" "payload") =
      DeserializeStep.versionError (unsupportedVersionMsg "1.0") :=
  ((deserialize_version_gate (ISerializedData.mk "1.0" "payload")).1 (by decide)).1

/-- C2: with success status but an empty or absent string, both message
getters reject with the empty-result message carrying the sourceId, and
neither ever resolves with an empty string. -/
theorem empty_message_rejection (sid : String) (err : Nat) (msg : Option String)
    (he : err = 0) (hm : msg = Option.none ∨ msg = some "") :
    getCredentialOfferMsgCallback sid err msg = .rejectMsg (emptyResultMsg sid)
    ∧ getCredentialMsgCallback sid err msg = .rejectMsg (emptyResultMsg sid)
    ∧ (∃ p q, emptyResultMsg sid = p ++ sid ++ q)
    ∧ (∀ e m, getCredentialOfferMsgCallback sid e m ≠ .resolve (some "")
        ∧ getCredentialMsgCallback sid e m ≠ .resolve (some "")) := by
  subst he
  have hfalsy : jsFalsy msg = true := by
    rcases hm with h | h <;> subst h <;> rfl
  refine ⟨?_, ?_, ⟨"Credential ", " returned empty string", rfl⟩, ?_⟩
  · simp [getCredentialOfferMsgCallback, hfalsy]
  · simp [getCredentialMsgCallback, hfalsy]
  · intro e m
    have key : ∀ sid2 : String,
        (if e ≠ 0 then (Settle.reject e : Settle (Option String))
          else if jsFalsy m then .rejectMsg (emptyResultMsg sid2) else .resolve m)
          ≠ .resolve (some "") := by
      intro sid2
      by_cases he2 : e ≠ 0
      · rw [if_pos he2]
        exact fun hc => Settle.noConfusion hc
      · rw [if_neg he2]
        by_cases hf : jsFalsy m = true
        · rw [if_pos hf]
          exact fun hc => Settle.noConfusion hc
        · rw [if_neg hf]
          intro hc
          have hm2 : m = some "" := by
            injection hc
          subst hm2
          exact hf rfl
    exact ⟨key sid, key sid⟩

/-- Witness for C2 at a success status and an empty delivered string. -/
theorem empty_message_rejection_witness :
    getCredentialOfferMsgCallback "12" 0 (some "") =
      Settle.rejectMsg (emptyResultMsg "12") :=
  (empty_message_rejection "12" 0 (some "") rfl (Or.inr rfl)).1

/-- C3: each (state, trigger) pair of the issuance transition table
yields exactly the listed resulting state, and sendCredential from
Initialized is rejected by the engine rather than silently accepted. -/
theorem issuance_transition_table :
    issuanceStep .none .create = some .initialized
    ∧ issuanceStep .initialized .sendOffer = some .offerSent
    ∧ issuanceStep .offerSent .credentialRequest = some .requestReceived
    ∧ issuanceStep .offerSent .problemReport = some .none
    ∧ issuanceStep .requestReceived .sendCredential = some .accepted
    ∧ issuanceStep .accepted .ack = some .accepted
    ∧ issuanceStep .initialized .sendCredential = Option.none :=
  ⟨rfl, rfl, rfl, rfl, rfl, rfl, rfl⟩

/-- C4: deserializing the serialization of an object yields an object
whose getState equals the original's state at serialization time and
whose sourceId equals the original's. -/
theorem serialize_deserialize_round_trip (o : IssuerCredentialObj) :
    ∃ o2, deserialize (serialize o) = .ok o2
      ∧ o2.state = o.state ∧ o2.sourceId = o.sourceId := by
  refine ⟨{ sourceId := o.sourceId, state := o.state }, ?_, rfl, rfl⟩
  unfold deserialize deserializeDispatch serialize
  rw [if_pos rfl]
  rfl

/-- C5 counterexample: the claim that each native call passes a command
id unique among the currently outstanding calls fails on the code —
distinct operations that may be outstanding together all pass the same
command handle. -/
theorem command_handle_not_unique :
    ¬ ∀ o1 o2 : IssuerOp, o1 ≠ o2 → commandHandleOf o1 ≠ commandHandleOf o2 :=
  fun hu => hu .sendOffer .revokeCredential (by decide) rfl

/-- C5 amended: every native call issued by the binding layer passes
the constant command handle 0, so command ids of distinct outstanding
calls coincide; correlation with the pending completion is established
per call by the freshly created callback, not by the command id. -/
theorem command_handle_always_zero (op : IssuerOp) : commandHandleOf op = 0 := by
  cases op <;> rfl

/-- C6: when the synchronous native invocation returns a nonzero status
code, the operation rejects immediately with that code instead of
waiting for any callback. -/
theorem sync_nonzero_rejects_immediately (op : IssuerOp) (rc : Nat) (h : rc ≠ 0) :
    syncStep op rc = .rejectedSync rc := by
  cases op <;> simp [syncStep, h]

/-- Witness for C6 at sendOffer with synchronous status 5. -/
theorem sync_nonzero_rejects_immediately_witness :
    syncStep .sendOffer 5 = .rejectedSync 5 :=
  sync_nonzero_rejects_immediately .sendOffer 5 (by decide)

/-- C7: each public method either resolves with the fully decoded
callback value or rejects with a VCXInternalError wrapping the original
failure, and a resolution can only carry exactly the value the callback
delivered — no unwrapped failure and no partial result. -/
theorem method_total_wrap (α : Type) (rc : Nat) (s : Settle α) :
    ((∃ v, runMethod rc s = .ok v)
      ∨ (∃ e, runMethod rc s = .error ⟨e⟩))
    ∧ (∀ v, runMethod rc s = .ok v → rc = 0 ∧ s = .resolve v) := by
  constructor
  · unfold runMethod
    by_cases h : rc ≠ 0
    · rw [if_pos h]
      exact Or.inr ⟨.engine rc, rfl⟩
    · rw [if_neg h]
      cases s with
      | resolve v => exact Or.inl ⟨v, rfl⟩
      | reject c => exact Or.inr ⟨.engine c, rfl⟩
      | rejectMsg m => exact Or.inr ⟨.jsError m, rfl⟩
  · intro v hv
    unfold runMethod at hv
    by_cases h : rc ≠ 0
    · rw [if_pos h] at hv
      exact absurd hv (by simp)
    · rw [if_neg h] at hv
      cases s with
      | resolve w =>
        have hw : w = v := by injection hv
        subst hw
        exact ⟨not_ne_iff.mp h, rfl⟩
      | reject c => exact absurd hv (by simp)
      | rejectMsg m => exact absurd hv (by simp)

/-- Witness for C7 at a successful call resolving a concrete string. -/
theorem method_total_wrap_witness :
    (0 : Nat) = 0 ∧ Settle.resolve (some "msg") = Settle.resolve (some "msg") :=
  (method_total_wrap (Option String) 0 (.resolve (some "msg"))).2 (some "msg") rfl

/-- Helper for C8: when the native create call is issued and the result
is a success, exactly one native call was made and the object is in
state Initialized with the given sourceId. -/
theorem createIssue_ok (d : IIssuerCredentialCreateData) (nec : Option Nat)
    (obj : IssuerCredentialObj) (h : (createIssue d nec).result = .ok obj) :
    (createIssue d nec).nativeCreateCalls = 1
      ∧ obj.state = .initialized ∧ obj.sourceId = d.sourceId := by
  cases nec with
  | none =>
    simp only [createIssue] at h
    have hobj : { sourceId := d.sourceId, state := .initialized : IssuerCredentialObj } = obj := by
      injection h
    subst hobj
    exact ⟨rfl, rfl, rfl⟩
  | some c =>
    simp only [createIssue] at h
    exact absurd h (by simp)

/-- C8: a create input whose attribute mapping cannot be encoded to
JSON fails synchronously with the wrapped encode error before any
native create call is issued; a successful create issues exactly one
native call and yields an object in state Initialized with the given
sourceId bound. -/
theorem create_encode_failure_sync (d : IIssuerCredentialCreateData)
    (nativeErrCode : Option Nat) :
    (∀ a e, d.attr = some a → jsonStringifyAttr a = .error e →
        (create d nativeErrCode).nativeCreateCalls = 0
          ∧ (create d nativeErrCode).result = .error ⟨.jsError e⟩)
    ∧ (∀ obj, (create d nativeErrCode).result = .ok obj →
        (create d nativeErrCode).nativeCreateCalls = 1
          ∧ obj.state = .initialized ∧ obj.sourceId = d.sourceId) := by
  constructor
  · intro a e ha he
    cases a with
    | encodable j => exact absurd he (by simp [jsonStringifyAttr])
    | unencodable m =>
      have hme : m = e := by
        simpa [jsonStringifyAttr] using he
      subst hme
      constructor
      · simp [create, ha, jsonStringifyAttr]
      · simp [create, ha, jsonStringifyAttr]
  · intro obj hobj
    cases hattr : d.attr with
    | none =>
      rw [show create d nativeErrCode = createIssue d nativeErrCode by
        simp [create, hattr]] at hobj ⊢
      exact createIssue_ok d nativeErrCode obj hobj
    | some a =>
      cases a with
      | encodable j =>
        rw [show create d nativeErrCode = createIssue d nativeErrCode by
          simp [create, hattr, jsonStringifyAttr]] at hobj ⊢
        exact createIssue_ok d nativeErrCode obj hobj
      | unencodable m =>
        rw [show create d nativeErrCode
            = { nativeCreateCalls := 0, result := .error ⟨.jsError m⟩ } by
          simp [create, hattr, jsonStringifyAttr]] at hobj
        exact absurd hobj (by simp)

/-- Witness for C8 at a concrete unencodable attribute object. -/
theorem create_encode_failure_sync_witness :
    (create sampleBadCreateData Option.none).nativeCreateCalls = 0 :=
  ((create_encode_failure_sync sampleBadCreateData Option.none).1
    (.unencodable "Converting circular structure to JSON")
    "Converting circular structure to JSON" rfl rfl).1

/-- C9: with success status, getThreadId and getRevRegId resolve with
exactly the delivered value, the empty string included, while the two
message getters never resolve with an empty string. -/
theorem plain_string_callbacks_resolve_delivered (err : Nat) (s : Option String)
    (h : err = 0) :
    getThreadIdCallback err s = .resolve s
    ∧ getRevRegIdCallback err s = .resolve s
    ∧ (∀ sid, getCredentialOfferMsgCallback sid 0 (some "") ≠ .resolve (some "")
        ∧ getCredentialMsgCallback sid 0 (some "") ≠ .resolve (some "")) := by
  subst h
  refine ⟨rfl, rfl, ?_⟩
  intro sid
  exact ⟨fun hc => Settle.noConfusion hc, fun hc => Settle.noConfusion hc⟩

/-- Witness for C9 at success status and an empty delivered string. -/
theorem plain_string_callbacks_resolve_delivered_witness :
    getThreadIdCallback 0 (some "") = Settle.resolve (some "") :=
  (plain_string_callbacks_resolve_delivered 0 (some "") rfl).1

/-- Helper for C10: folding handle assignments preserves the equality
between the paymentManager's handle and the stored handle. -/
theorem setHandle_fold_invariant (hs : List Nat) (s : IssuerCredentialHandleState)
    (h : s.paymentManagerHandle = some s.handle) :
    (hs.foldl setHandle s).paymentManagerHandle
      = some ((hs.foldl setHandle s).handle) := by
  induction hs generalizing s with
  | nil => exact h
  | cons a t ih => exact ih (setHandle s a) rfl

/-- C10: after the first handle assignment (on create or deserialize)
and any further reassignments, the paymentManager's handle equals the
credential's current native handle. -/
theorem payment_manager_handle_invariant (s0 : IssuerCredentialHandleState)
    (h : Nat) (hs : List Nat) :
    ((h :: hs).foldl setHandle s0).paymentManagerHandle
      = some (((h :: hs).foldl setHandle s0).handle) :=
  setHandle_fold_invariant hs (setHandle s0 h) rfl

end AriesVcx
